import Mathlib

/-!
Shallow embedding of `src/static/js/modules/worker_outgoing_transfers.js`
(`WorkerOutgoingTransfersModule`), the outgoing-transfers chart view.

JavaScript objects are modelled as ordered association lists (`Object.keys`
and `Object.entries` iterate the same key order).  The module's `this.data`
field may be `undefined` (`none`), and a present data object may itself lack
a `transfers` field (`none`).  Dereferencing `undefined` raises a JavaScript
`TypeError`; this is modelled explicitly.  Calls into the base module
(`initSVG`, `plotPath`, `createLegendRow`) and into d3 (`selectAll`,
`style`) are modelled as recorded effects: `plot` returns the list of path
draw requests it issued, `initLegend` returns the legend-row render request,
and `legendOnToggle` transforms the list of rendered SVG paths.

The helpers `escapeWorkerId` and `getWorkerColor` live in `utils.js`, an
external collaborator; they are taken as parameters (`esc`, `colorOf`).
-/

namespace WorkerOutgoingTransfers

/-- A single transfer sample: a `{timestamp, value}` point of a worker's
time series.  The module passes points through to `plotPath` opaquely. -/
structure Point where
  timestamp : Nat
  value : Int
deriving Repr, DecidableEq

/-- The `transfers` mapping of the dataset: a JavaScript object from worker
name to its ordered point sequence, modelled as an ordered association
list. -/
abbrev Transfers := List (String × List Point)

/-- The module's dataset object (`this.data` when present).  Its
`transfers` field may itself be absent (`undefined`), modelled as `none`. -/
structure DataObj where
  transfers : Option Transfers
deriving Repr, DecidableEq

/-- A JavaScript runtime error.  The only one this module can raise is the
`TypeError` thrown by dereferencing `undefined`. -/
inductive JsError
  | typeError
deriving Repr, DecidableEq

/-- One legend entry as built by `initLegend`:
`{ id: escapeWorkerId(worker), label: worker, color: getWorkerColor(worker, idx) }`. -/
structure LegendItem where
  id : String
  label : String
  color : String
deriving Repr, DecidableEq

/-- The legend-row render request passed to the base module's
`createLegendRow`: the sorted item list plus the checkbox group name. -/
structure LegendRender where
  items : List LegendItem
  checkboxName : String
deriving Repr, DecidableEq

/-- One path draw request issued to the base module's `plotPath`. -/
structure PathSpec where
  points : List Point
  stroke : String
  className : String
  id : String
  tooltipInnerHTML : String
deriving Repr, DecidableEq

/-- The observable effect of one `plot()` call: whether `initSVG` ran, the
draw requests issued, and the error raised, if any. -/
structure PlotResult where
  svgInit : Bool
  paths : List PathSpec
  error : Option JsError
deriving Repr, DecidableEq

/-- The comparator `(a, b) => a.label.localeCompare(b.label)` used to sort
legend items, as the boolean test `a.label ≤ b.label`. -/
def legendLe (a b : LegendItem) : Bool := decide (a.label ≤ b.label)

/-- The arrow function `(worker, idx) => ({ id: escapeWorkerId(worker),
label: worker, color: getWorkerColor(worker, idx) })` mapped over the
indexed worker keys in `initLegend`. -/
def mkLegendItem (esc : String → String) (colorOf : String → Nat → String)
    (p : Nat × String) : LegendItem :=
  { id := esc p.2, label := p.2, color := colorOf p.2 p.1 }

/-- Embedding of `initLegend()`:
`Object.keys(this.data.transfers).map((worker, idx) => ({id, label, color}))`
sorted by label, then passed to `createLegendRow` with checkbox group
`outgoing-transfers`.  There is no guard: if `this.data` is `undefined`, or
`this.data.transfers` is, the dereference throws a `TypeError`. -/
def initLegend (esc : String → String) (colorOf : String → Nat → String)
    (data : Option DataObj) : Except JsError LegendRender :=
  match data with
  | none => .error .typeError
  | some d =>
    match d.transfers with
    | none => .error .typeError
    | some ts =>
      let items := (ts.map Prod.fst).enum.map (mkLegendItem esc colorOf)
      .ok { items := items.mergeSort legendLe, checkboxName := "outgoing-transfers" }

/-- The arrow function `([worker, points], idx) => this.plotPath(points,
{stroke, className, id, tooltipInnerHTML})` run by `plot` for each entry of
`Object.entries(this.data.transfers)`. -/
def mkPathSpec (esc : String → String) (colorOf : String → Nat → String)
    (p : Nat × (String × List Point)) : PathSpec :=
  { points := p.2.2
    stroke := colorOf p.2.1 p.1
    className := "transfer-line"
    id := "transfer-" ++ esc p.2.1
    tooltipInnerHTML := p.2.1 }

/-- Embedding of `plot()`: returns early when `this.data` is `undefined`;
otherwise calls `initSVG()` and then, for each `[worker, points]` entry of
`this.data.transfers` with its index, issues one `plotPath` request.  When
`this.data.transfers` is `undefined`, `Object.entries` throws a `TypeError`
after `initSVG` has already run. -/
def plot (esc : String → String) (colorOf : String → Nat → String)
    (data : Option DataObj) : PlotResult :=
  match data with
  | none => { svgInit := false, paths := [], error := none }
  | some d =>
    match d.transfers with
    | none => { svgInit := true, paths := [], error := some .typeError }
    | some ts =>
      { svgInit := true
        error := none
        paths := ts.enum.map (mkPathSpec esc colorOf) }

/-- One rendered SVG path on the chart surface: its element id and its
inline `display` style (`none` models the unset default, `some "none"`
models hidden). -/
structure SvgPath where
  id : String
  display : Option String
deriving Repr, DecidableEq

/-- Embedding of `legendOnToggle(id, visible)`: d3's
`selectAll('#transfer-' + id)` followed by
`.style('display', visible ? null : 'none')`, i.e. every rendered path whose
element id matches gets its display style set (`null` clears it); paths
that do not match are untouched, and an empty selection is a no-op. -/
def legendOnToggle (svg : List SvgPath) (i : String) (visible : Bool) :
    List SvgPath :=
  svg.map fun p =>
    if p.id = "transfer-" ++ i then
      { p with display := if visible then none else some "none" }
    else p

/-- The shared chart configuration touched by the base module's scale
setters. -/
structure ChartConfig where
  bottomScaleType : String
  leftScaleType : String
deriving Repr, DecidableEq

/-- Modelled from the spec: `setBottomScaleType`, a base-module setter
missing from the sources, which records the requested bottom-axis scale
type in the shared chart configuration. -/
def setBottomScaleType (cfg : ChartConfig) (t : String) : ChartConfig :=
  { cfg with bottomScaleType := t }

/-- Modelled from the spec: `setLeftScaleType`, a base-module setter
missing from the sources, which records the requested left-axis scale type
in the shared chart configuration. -/
def setLeftScaleType (cfg : ChartConfig) (t : String) : ChartConfig :=
  { cfg with leftScaleType := t }

/-- Embedding of the constructor body after `super(...)`: it calls
`setBottomScaleType('linear')` and then `setLeftScaleType('linear')` on the
shared chart configuration. -/
def constructorScales (cfg : ChartConfig) : ChartConfig :=
  setLeftScaleType (setBottomScaleType cfg "linear") "linear"

/-- Modelled from the spec: the base-module caller of `initLegend`, missing
from the sources, whose precondition the spec states as "dataset must be
set; if absent, this is skipped entirely (no render attempted, no error
raised)".  When the dataset is absent it skips the legend build (`ok none`,
no render request); otherwise it runs `initLegend`. -/
def buildLegend (esc : String → String) (colorOf : String → Nat → String)
    (data : Option DataObj) : Except JsError (Option LegendRender) :=
  match data with
  | none => .ok none
  | some _ => (initLegend esc colorOf data).map some

end WorkerOutgoingTransfers

namespace WorkerOutgoingTransfers

/-- C1: every call to `buildLegend` made while no dataset is set is skipped
entirely: no legend-row render is requested and no error is raised. -/
theorem buildLegend_no_data (esc : String → String)
    (colorOf : String → Nat → String) :
    buildLegend esc colorOf none = .ok none := rfl

/-- C2: `plot` called while no dataset is present does nothing: `initSVG`
is not called, no draw request is issued, and no error is raised. -/
theorem plot_no_data (esc : String → String)
    (colorOf : String → Nat → String) :
    plot esc colorOf none = { svgInit := false, paths := [], error := none } := rfl

/-- C7: the constructor configures both chart axes, bottom and left, to
linear scale. -/
theorem constructor_linear_scales (cfg : ChartConfig) :
    (constructorScales cfg).bottomScaleType = "linear" ∧
    (constructorScales cfg).leftScaleType = "linear" := ⟨rfl, rfl⟩

/-- C8: on the empty dataset, `plot` completes without error and draws no
path (while still initializing the drawing surface), and `initLegend`
completes without error producing no legend item. -/
theorem empty_dataset_ok (esc : String → String)
    (colorOf : String → Nat → String) :
    plot esc colorOf (some ⟨some []⟩) =
      { svgInit := true, paths := [], error := none } ∧
    initLegend esc colorOf (some ⟨some []⟩) =
      .ok { items := [], checkboxName := "outgoing-transfers" } :=
  ⟨rfl, by simp [initLegend]⟩

/-- Mapping a function over an enumerated list that ignores the index is
mapping the index-free function over the list itself. -/
theorem enum_map_comp_eq {α β : Type} (l : List α) (F : Nat × α → β)
    (g : α → β) (h : ∀ p, F p = g p.2) : l.enum.map F = l.map g := by
  have h1 : l.enum.map F = l.enum.map (g ∘ Prod.snd) := by
    apply List.map_congr_left
    intro p hp
    exact h p
  rw [h1, ← List.map_map, List.enum_map_snd]

/-- Prepending a fixed string is injective. -/
theorem string_append_left_injective (t : String) :
    Function.Injective (fun s => t ++ s) := by
  intro a b h
  have hd : (t ++ a).data = (t ++ b).data := congrArg String.data h
  rw [String.data_append, String.data_append] at hd
  exact String.ext (List.append_cancel_left hd)

/-- C3: on every dataset with at least one worker key, `initLegend` builds
exactly one legend item per worker key (the labels are a permutation of the
worker keys, so the counts agree), and the resulting item list is sorted
ascending by label, whatever the iteration order of the mapping. -/
theorem initLegend_sorted_one_per_key (esc : String → String)
    (colorOf : String → Nat → String) (ts : Transfers) (_hne : ts ≠ []) :
    ∃ r, initLegend esc colorOf (some ⟨some ts⟩) = .ok r ∧
      r.items.length = ts.length ∧
      (r.items.map LegendItem.label).Perm (ts.map Prod.fst) ∧
      r.items.Pairwise (fun a b => a.label ≤ b.label) := by
  refine ⟨_, rfl, ?_, ?_, ?_⟩
  · simp [List.length_mergeSort]
  · have hperm := (List.mergeSort_perm
      ((ts.map Prod.fst).enum.map (mkLegendItem esc colorOf)) legendLe).map
      LegendItem.label
    have heq : ((ts.map Prod.fst).enum.map (mkLegendItem esc colorOf)).map
        LegendItem.label = ts.map Prod.fst := by
      rw [List.map_map]
      have h1 := enum_map_comp_eq (ts.map Prod.fst)
        (LegendItem.label ∘ mkLegendItem esc colorOf) (fun w => w) (fun p => rfl)
      rw [h1, List.map_id']
    rw [heq] at hperm
    exact hperm
  · have htrans : ∀ a b c : LegendItem, legendLe a b = true →
        legendLe b c = true → legendLe a c = true := by
      intro a b c hab hbc
      simp only [legendLe, decide_eq_true_eq] at hab hbc ⊢
      exact le_trans hab hbc
    have htotal : ∀ a b : LegendItem, (legendLe a b || legendLe b a) = true := by
      intro a b
      simp only [legendLe, Bool.or_eq_true, decide_eq_true_eq]
      exact le_total a.label b.label
    have hs := List.sorted_mergeSort htrans htotal
      ((ts.map Prod.fst).enum.map (mkLegendItem esc colorOf))
    exact hs.imp (by intro a b h; simpa [legendLe] using h)

/-- C3 witness: on the two-worker dataset listed in descending key order,
the legend has one item per worker and is sorted ascending by label. -/
theorem initLegend_sorted_one_per_key_witness :
    ([("w2", []), ("w1", [])] : Transfers) ≠ [] ∧
    ∃ r, initLegend (fun s => s) (fun s _ => s)
        (some ⟨some [("w2", []), ("w1", [])]⟩) = .ok r ∧
      r.items.length = ([("w2", []), ("w1", [])] : Transfers).length ∧
      (r.items.map LegendItem.label).Perm
        (([("w2", []), ("w1", [])] : Transfers).map Prod.fst) ∧
      r.items.Pairwise (fun a b => a.label ≤ b.label) :=
  ⟨by decide, initLegend_sorted_one_per_key (fun s => s) (fun s _ => s)
    [("w2", []), ("w1", [])] (by decide)⟩

/-- C4: on every dataset whose sanitized worker names are pairwise
distinct, `plot` issues exactly one path draw per worker key — the i-th
request plots the i-th worker's points with stroke equal to the assigned
color, the `transfer-line` class, element id `transfer-<sanitizedId>`, and
a tooltip showing the raw worker name — and all path element ids are
distinct. -/
theorem plot_one_path_per_key (esc : String → String)
    (colorOf : String → Nat → String) (ts : Transfers)
    (hids : (ts.map fun kv => esc kv.1).Nodup) :
    (plot esc colorOf (some ⟨some ts⟩)).error = none ∧
    (plot esc colorOf (some ⟨some ts⟩)).svgInit = true ∧
    (plot esc colorOf (some ⟨some ts⟩)).paths.length = ts.length ∧
    (∀ i, ∀ hi : i < ts.length,
      (plot esc colorOf (some ⟨some ts⟩)).paths[i]? =
        some { points := (ts.get ⟨i, hi⟩).2
               stroke := colorOf (ts.get ⟨i, hi⟩).1 i
               className := "transfer-line"
               id := "transfer-" ++ esc (ts.get ⟨i, hi⟩).1
               tooltipInnerHTML := (ts.get ⟨i, hi⟩).1 }) ∧
    ((plot esc colorOf (some ⟨some ts⟩)).paths.map PathSpec.id).Nodup := by
  refine ⟨rfl, rfl, by simp [plot], ?_, ?_⟩
  · intro i hi
    have henum : ts.enum[i]? = some (i, ts[i]) := by
      rw [List.getElem?_enum, List.getElem?_eq_getElem hi, Option.map_some']
    simp only [plot, List.getElem?_map, henum, Option.map_some']
    rfl
  · have heq : ts.enum.map (PathSpec.id ∘ mkPathSpec esc colorOf)
        = ts.map (fun kv : String × List Point => ("transfer-" ++ esc kv.1 : String)) :=
      enum_map_comp_eq ts _ _ (fun p => rfl)
    have hsplit : ts.map (fun kv : String × List Point => ("transfer-" ++ esc kv.1 : String))
        = (ts.map fun kv => esc kv.1).map (fun s => "transfer-" ++ s) :=
      (List.map_map _ _ _).symm
    show ((ts.enum.map (mkPathSpec esc colorOf)).map PathSpec.id).Nodup
    rw [List.map_map, heq, hsplit]
    exact hids.map (string_append_left_injective "transfer-")

/-- C4 witness: on a concrete two-worker dataset with the identity
sanitizer, `plot` issues exactly the two expected draw requests with
distinct ids. -/
theorem plot_one_path_per_key_witness :
    (([("w1", []), ("w2", [])] : Transfers).map (fun kv => kv.1)).Nodup ∧
    ((plot (fun s => s) (fun s _ => s) (some ⟨some [("w1", []), ("w2", [])]⟩)).error = none ∧
     (plot (fun s => s) (fun s _ => s) (some ⟨some [("w1", []), ("w2", [])]⟩)).svgInit = true ∧
     (plot (fun s => s) (fun s _ => s) (some ⟨some [("w1", []), ("w2", [])]⟩)).paths.length =
       ([("w1", []), ("w2", [])] : Transfers).length ∧
     (∀ i, ∀ hi : i < ([("w1", []), ("w2", [])] : Transfers).length,
       (plot (fun s => s) (fun s _ => s) (some ⟨some [("w1", []), ("w2", [])]⟩)).paths[i]? =
         some { points := (([("w1", []), ("w2", [])] : Transfers).get ⟨i, hi⟩).2
                stroke := (([("w1", []), ("w2", [])] : Transfers).get ⟨i, hi⟩).1
                className := "transfer-line"
                id := "transfer-" ++ (([("w1", []), ("w2", [])] : Transfers).get ⟨i, hi⟩).1
                tooltipInnerHTML := (([("w1", []), ("w2", [])] : Transfers).get ⟨i, hi⟩).1 }) ∧
     ((plot (fun s => s) (fun s _ => s) (some ⟨some [("w1", []), ("w2", [])]⟩)).paths.map
       PathSpec.id).Nodup) :=
  ⟨by decide, plot_one_path_per_key (fun s => s) (fun s _ => s)
    [("w1", []), ("w2", [])] (by decide)⟩

/-- C5: toggling a sanitized identifier that matches no rendered path is a
no-op: no error, and every path's display state is unchanged. -/
theorem legendOnToggle_no_match (svg : List SvgPath) (i : String) (v : Bool)
    (h : ∀ p ∈ svg, p.id ≠ "transfer-" ++ i) :
    legendOnToggle svg i v = svg := by
  have h2 : ∀ p ∈ svg, (fun p : SvgPath =>
      if p.id = "transfer-" ++ i then
        { p with display := if v then none else some "none" }
      else p) p = id p := by
    intro p hp
    simp [if_neg (h p hp)]
  unfold legendOnToggle
  rw [List.map_congr_left h2, List.map_id]

/-- C5 witness: toggling the unmatched identifier `b` leaves the single
rendered path untouched. -/
theorem legendOnToggle_no_match_witness :
    (∀ p ∈ [({ id := "transfer-a", display := none } : SvgPath)],
      p.id ≠ "transfer-" ++ "b") ∧
    legendOnToggle [({ id := "transfer-a", display := none } : SvgPath)] "b" false =
      [({ id := "transfer-a", display := none } : SvgPath)] :=
  ⟨by decide, legendOnToggle_no_match
    [({ id := "transfer-a", display := none } : SvgPath)] "b" false (by decide)⟩

/-- C6: toggling an existing path identifier with `visible=false` sets the
matching path's display to hidden and with `visible=true` clears it back to
the default, and the toggle is idempotent: applying the same boolean twice
yields the same state as applying it once. -/
theorem legendOnToggle_display (svg : List SvgPath) (i : String) (v : Bool)
    (p : SvgPath) (hp : p ∈ legendOnToggle svg i v)
    (hid : p.id = "transfer-" ++ i) :
    p.display = (if v then none else some "none") ∧
    legendOnToggle (legendOnToggle svg i v) i v = legendOnToggle svg i v := by
  constructor
  · simp only [legendOnToggle, List.mem_map] at hp
    rcases hp with ⟨q, hq, hfq⟩
    by_cases hcase : q.id = "transfer-" ++ i
    · rw [if_pos hcase] at hfq
      rw [← hfq]
    · rw [if_neg hcase] at hfq
      rw [← hfq] at hid
      exact absurd hid hcase
  · simp only [legendOnToggle, List.map_map]
    apply List.map_congr_left
    intro q hq
    by_cases hcase : q.id = "transfer-" ++ i
    · simp [Function.comp, hcase]
    · simp [Function.comp, hcase]

/-- C6 witness: hiding the path `transfer-a` sets its display to `none`
(hidden) and the toggle is idempotent on that state. -/
theorem legendOnToggle_display_witness :
    ({ id := "transfer-a", display := some "none" } : SvgPath) ∈
      legendOnToggle [({ id := "transfer-a", display := none } : SvgPath)] "a" false ∧
    ({ id := "transfer-a", display := some "none" } : SvgPath).id = "transfer-" ++ "a" ∧
    (({ id := "transfer-a", display := some "none" } : SvgPath).display =
        (if false then none else some "none") ∧
      legendOnToggle
          (legendOnToggle [({ id := "transfer-a", display := none } : SvgPath)] "a" false)
          "a" false =
        legendOnToggle [({ id := "transfer-a", display := none } : SvgPath)] "a" false) :=
  ⟨by decide, by decide, legendOnToggle_display
    [({ id := "transfer-a", display := none } : SvgPath)] "a" false
    ({ id := "transfer-a", display := some "none" } : SvgPath) (by decide) (by decide)⟩

/-- C9: for every dataset and every worker position, the legend item built
for that worker carries the same assigned color that `plot` uses as that
worker's path stroke, because both compute `getWorkerColor(worker, idx)`
with the same worker name and the same index of the shared key order. -/
theorem legend_color_matches_path_stroke (esc : String → String)
    (colorOf : String → Nat → String) (ts : Transfers) (r : LegendRender)
    (hr : initLegend esc colorOf (some ⟨some ts⟩) = .ok r)
    (i : Nat) (hi : i < ts.length) :
    (∃ item ∈ r.items,
        item.label = (ts.get ⟨i, hi⟩).1 ∧
        item.color = colorOf (ts.get ⟨i, hi⟩).1 i) ∧
    ((plot esc colorOf (some ⟨some ts⟩)).paths[i]?.map PathSpec.stroke =
      some (colorOf (ts.get ⟨i, hi⟩).1 i)) := by
  constructor
  · have hkey : i < (ts.map Prod.fst).length := by simpa using hi
    have henum : i < (ts.map Prod.fst).enum.length := by simpa using hkey
    have hmem : mkLegendItem esc colorOf (i, (ts.map Prod.fst)[i]) ∈
        (ts.map Prod.fst).enum.map (mkLegendItem esc colorOf) := by
      apply List.mem_map_of_mem
      rw [← List.getElem_enum (ts.map Prod.fst) i henum]
      exact List.getElem_mem henum
    have hr2 : (Except.ok (LegendRender.mk (((ts.map Prod.fst).enum.map
          (mkLegendItem esc colorOf)).mergeSort legendLe)
          "outgoing-transfers") : Except JsError LegendRender) =
        Except.ok r := hr
    injection hr2 with h
    have hitems : r.items =
        ((ts.map Prod.fst).enum.map (mkLegendItem esc colorOf)).mergeSort legendLe := by
      rw [← h]
    refine ⟨mkLegendItem esc colorOf (i, (ts.map Prod.fst)[i]), ?_, ?_, ?_⟩
    · rw [hitems]
      exact (List.mergeSort_perm _ legendLe).mem_iff.mpr hmem
    · simp [mkLegendItem, List.getElem_map, List.get_eq_getElem]
    · simp [mkLegendItem, List.getElem_map, List.get_eq_getElem]
  · have henum : ts.enum[i]? = some (i, ts[i]) := by
      rw [List.getElem?_enum, List.getElem?_eq_getElem hi, Option.map_some']
    simp only [plot, List.getElem?_map, henum, Option.map_some']
    rfl

/-- C9 witness: on a one-worker dataset the legend item's color and the
path's stroke are the same assigned color. -/
theorem legend_color_matches_path_stroke_witness :
    initLegend (fun s => s) (fun s _ => s)
        (some ⟨some [("w1", [])]⟩) =
      .ok (LegendRender.mk [LegendItem.mk "w1" "w1" "w1"] "outgoing-transfers") ∧
    (0 : Nat) < ([("w1", [])] : Transfers).length ∧
    ((∃ item ∈ (LegendRender.mk [LegendItem.mk "w1" "w1" "w1"]
          "outgoing-transfers").items,
        item.label = (([("w1", [])] : Transfers).get ⟨0, by decide⟩).1 ∧
        item.color = (fun s _ => s)
          (([("w1", [])] : Transfers).get ⟨0, by decide⟩).1 (0 : Nat)) ∧
      ((plot (fun s => s) (fun s _ => s)
          (some ⟨some [("w1", [])]⟩)).paths[(0 : Nat)]?.map PathSpec.stroke =
        some ((fun s _ => s)
          (([("w1", [])] : Transfers).get ⟨0, by decide⟩).1 (0 : Nat)))) :=
  ⟨by simp [initLegend, mkLegendItem], by decide,
    legend_color_matches_path_stroke (fun s => s) (fun s _ => s)
      [("w1", [])]
      (LegendRender.mk [LegendItem.mk "w1" "w1" "w1"] "outgoing-transfers")
      (by simp [initLegend, mkLegendItem]) 0 (by decide)⟩

/-- C10: the missing-dataset guard in `plot` checks only that the data
object is present: on a data object whose `transfers` field is absent,
`plot` runs `initSVG` and then throws a `TypeError` instead of silently
doing nothing, and `initLegend`, which has no guard at all, throws a
`TypeError` as well — while a fully absent dataset is a silent no-op. -/
theorem transfers_absent_throws (esc : String → String)
    (colorOf : String → Nat → String) :
    plot esc colorOf (some ⟨none⟩) =
      { svgInit := true, paths := [], error := some .typeError } ∧
    initLegend esc colorOf (some ⟨none⟩) = .error .typeError ∧
    (plot esc colorOf none).error = none := ⟨rfl, rfl, rfl⟩

end WorkerOutgoingTransfers
